import Mathlib

/-!
Shallow embedding of the ComPDFKit Python client
(`src/source/compdfkit/client.py`) for checking the natural-language
specification against the code.

HTTP is modelled by a pure environment `HttpEnv : HttpRequest → HttpResponse`
supplying the server's answer to each request, and wall-clock time by an
explicit `now : Int` argument (milliseconds, as in `time.time() * 1000`)
passed to the functions that read the clock in the source.  Each operation
returns its result (`Except Err α`, where `Err` models raised exceptions)
together with the ordered list of observable effects it performed (files
opened, HTTP requests issued).

Modules of the repository that are imported by `client.py` but are not under
`src/` (`constant`, `enums`, `exception`, `pojo`, `param`) are modelled from
the spec; each such definition carries a doc comment starting with
`Modelled from the spec:`.
-/

/-- A JSON value, used for response envelopes and payloads
(`response.json()` in the source). -/
inductive JsonVal where
  | null
  | str (s : String)
  | num (n : Int)
  | arr (elems : List JsonVal)
  | obj (fields : List (String × JsonVal))
deriving Repr

/-- Field lookup on a JSON object, `d[key]` returning `none` where Python
would raise `KeyError`. -/
def JsonVal.getField : JsonVal → String → Option JsonVal
  | .obj fs, k => fs.lookup k
  | _, _ => none

/-- Extract a JSON string. -/
def JsonVal.getStr : JsonVal → Option String
  | .str s => some s
  | _ => none

/-- Extract a JSON number as an integer. -/
def JsonVal.getInt : JsonVal → Option Int
  | .num n => some n
  | _ => none

/-- A value of a multipart form field: either a plain string or a file part
`(file_name, open(path, "rb"))` as built in `get_upload_file_result`. -/
inductive FormValue where
  | str (s : String)
  | filePart (fileName : String) (path : String)
deriving Repr, DecidableEq

/-- An HTTP request as issued by the client: method, absolute URL, headers,
query parameters, JSON body (auth call) and multipart form data (upload). -/
structure HttpRequest where
  method : String
  url : String
  headers : List (String × String)
  params : List (String × String)
  jsonBody : List (String × String)
  formData : List (String × FormValue)
deriving Repr, DecidableEq

/-- The server's response: HTTP status plus the JSON envelope
`\x7bcode, msg, data\x7d` that every ComPDFKit response carries
(spec section 6). -/
structure HttpResponse where
  status : Nat
  code : String
  msg : String
  data : JsonVal
deriving Repr

/-- The HTTP environment: a pure oracle answering each request. -/
abbrev HttpEnv := HttpRequest → HttpResponse

/-- An observable effect of an operation, in program order. -/
inductive Effect where
  | openFile (path : String)
  | httpRequest (req : HttpRequest)
deriving Repr, DecidableEq

/-- Modelled from the spec: the `exception` module is not under `src/`.
`apiError` is `CPDFException(code=..., message=...)` (the spec's
`ApiError`/`AuthenticationError`), `localError` is
`CPDFException(cause=...)` (the spec's `InvalidArgumentError`), and
`pyTypeError`/`pyKeyError` model Python runtime errors the interpreter
raises before any exception class is involved. -/
inductive Err where
  | apiError (code : String) (message : String)
  | localError (cause : String)
  | pyTypeError
  | pyKeyError
deriving Repr, DecidableEq

/-- Modelled from the spec: the `constant` module is not under `src/`.
Relative API paths under the fixed base address (spec section 6); the
claims depend only on these being fixed and distinct. -/
def API_V1_OAUTH_TOKEN : String := "v1/oauth/token"

/-- Modelled from the spec: tools-support path. -/
def API_V1_TOOL_SUPPORT : String := "v1/tool/support"

/-- Modelled from the spec: file-info path. -/
def API_V1_FILE_INFO : String := "v1/file/fileInfo"

/-- Modelled from the spec: asset-info path. -/
def API_V1_ASSET_INFO : String := "v1/asset/info"

/-- Modelled from the spec: task-list path. -/
def API_V1_TASK_LIST : String := "v1/task/list"

/-- Modelled from the spec: the create-task path is templated by the tool
endpoint (`API_V1_CREATE_TASK.format(executeTypeUrl=...)` in the source). -/
def API_V1_CREATE_TASK (executeTypeUrl : String) : String :=
  "v1/task/" ++ executeTypeUrl

/-- Modelled from the spec: upload path. -/
def API_V1_UPLOAD_FILE : String := "v1/file/upload"

/-- Modelled from the spec: execute-task path. -/
def API_V1_EXECUTE_TASK : String := "v1/execute/start"

/-- Modelled from the spec: task-info path. -/
def API_V1_TASK_INFO : String := "v1/task/taskInfo"

/-- Modelled from the spec: the language enumeration is a small closed set
(English, Chinese, ...), carried as an integer query parameter. -/
def CPDFLanguageConstant.ENGLISH : Int := 1

/-- Modelled from the spec: the Chinese member of the language enumeration. -/
def CPDFLanguageConstant.CHINESE : Int := 2

/-- Modelled from the spec: the `pojo` module is not under `src/`.
Result of the auth exchange, `\x7baccessToken, expiresIn\x7d`. -/
structure CPDFOauthResult where
  access_token : String
  expires_in : Int
deriving Repr, DecidableEq

/-- Modelled from the spec: parsing the auth payload
(`CPDFOauthResult(response.json()['data'])`). -/
def CPDFOauthResult.ofJson (j : JsonVal) : Option CPDFOauthResult := do
  let tok ← (j.getField "accessToken").bind JsonVal.getStr
  let exp ← (j.getField "expiresIn").bind JsonVal.getInt
  pure ⟨tok, exp⟩

/-- Modelled from the spec: create-task payload `\x7btaskId\x7d`. -/
structure CPDFCreateTaskResult where
  task_id : String
deriving Repr, DecidableEq

/-- Modelled from the spec: parsing the create-task payload. -/
def CPDFCreateTaskResult.ofJson (j : JsonVal) : Option CPDFCreateTaskResult := do
  let tid ← (j.getField "taskId").bind JsonVal.getStr
  pure ⟨tid⟩

/-- Modelled from the spec: upload payload `\x7bfileKey, ...\x7d`. -/
structure CPDFUploadFileResult where
  file_key : String
deriving Repr, DecidableEq

/-- Modelled from the spec: parsing the upload payload. -/
def CPDFUploadFileResult.ofJson (j : JsonVal) : Option CPDFUploadFileResult := do
  let fk ← (j.getField "fileKey").bind JsonVal.getStr
  pure ⟨fk⟩

/-- Modelled from the spec: task-info payload `\x7btaskStatus, files\x7d`. -/
structure CPDFTaskInfoResult where
  task_status : String
deriving Repr, DecidableEq

/-- Modelled from the spec: parsing the task-info payload. -/
def CPDFTaskInfoResult.ofJson (j : JsonVal) : Option CPDFTaskInfoResult := do
  let s ← (j.getField "taskStatus").bind JsonVal.getStr
  pure ⟨s⟩

/-- Modelled from the spec: a tool descriptor from the catalog; the client
wraps each raw element. -/
structure CPDFTool where
  raw : JsonVal
deriving Repr

/-- Modelled from the spec: a file-info descriptor; the client wraps the raw
payload. -/
structure CPDFFileInfo where
  raw : JsonVal
deriving Repr

/-- Modelled from the spec: the `param` module is not under `src/`.  A
parameter object exposes only serialization to the wire JSON string
(`to_cpdf_json_str`). -/
structure CPDFFileParameter where
  json_str : String
deriving Repr, DecidableEq

/-- Serialization of a parameter object (the Parameter Codec). -/
def CPDFFileParameter.to_cpdf_json_str (p : CPDFFileParameter) : String :=
  p.json_str

/-- The mutable state of `CPDFHttpClient`: cached token and expiry plus the
construction-time credentials. -/
structure CPDFHttpClient where
  expire_time : Int
  access_token : String
  public_key : String
  secret_key : String
  connect_timeout : Int
deriving Repr, DecidableEq

/-- The fixed API base address. -/
def CPDFHttpClient.ADDRESS : String := "https://api-server.compdf.com/server/"

/-- Truthiness of an optional string argument, as Python's `if x:`
(absent and empty both falsy). -/
def truthyOptStr : Option String → Bool
  | none => false
  | some s => !(s == "")

/-- A model of `os.path.split`: split a path at its last slash into
(directory, file name). -/
def os_path_split (p : String) : String × String :=
  let rev := p.toList.reverse
  let tailRev := rev.takeWhile (fun c => c ≠ '/')
  let headRev := (rev.drop tailRev.length).dropWhile (fun c => c = '/')
  (String.mk headRev.reverse, String.mk tailRev.reverse)

namespace CPDFHttpClient

/-- The header dictionary built by `_basic_headers`: it reads the cached
token field directly (it does not call `get_access_token`). -/
def basic_headers (st : CPDFHttpClient) : List (String × String) :=
  [("Authorization", "Bearer " ++ st.access_token)]

/-- The POST request of the authentication exchange
(`get_compdfkit_auth`): JSON body with the two keys, no Authorization
header. -/
def authRequest (public_key secret_key : String) : HttpRequest :=
  { method := "POST"
    url := ADDRESS ++ API_V1_OAUTH_TOKEN
    headers := [("Content-Type", "application/json")]
    params := []
    jsonBody := [("publicKey", public_key), ("secretKey", secret_key)]
    formData := [] }

/-- The authentication exchange `get_compdfkit_auth`: one POST; on 200 the
parsed `data` payload, otherwise `CPDFException(code, msg)` from the
response envelope.  No retry. -/
def get_compdfkit_auth (env : HttpEnv) (public_key secret_key : String) :
    Except Err CPDFOauthResult × List Effect :=
  let req := authRequest public_key secret_key
  let response := env req
  (if response.status = 200 then
    match CPDFOauthResult.ofJson response.data with
    | some r => .ok r
    | none => .error .pyKeyError
   else .error (.apiError response.code response.msg),
   [Effect.httpRequest req])

/-- `set_access_token`: store the token and compute the absolute expiry
`expires_in * 1000 + int(round(time.time() * 1000))`. -/
def set_access_token (st : CPDFHttpClient) (now : Int)
    (access_token : String) (expires_in : Int) : CPDFHttpClient :=
  { st with access_token := access_token
            expire_time := expires_in * 1000 + now }

/-- `refresh_access_token`: run the auth exchange with the stored
credentials and cache the result. -/
def refresh_access_token (env : HttpEnv) (now : Int) (st : CPDFHttpClient) :
    Except Err Unit × CPDFHttpClient × List Effect :=
  match get_compdfkit_auth env st.public_key st.secret_key with
  | (.ok r, tr) => (.ok (), set_access_token st now r.access_token r.expires_in, tr)
  | (.error e, tr) => (.error e, st, tr)

/-- `get_access_token`: refresh when the expiry sentinel is negative, the
expiry has passed, or no token is held; then return the cached token. -/
def get_access_token (env : HttpEnv) (now : Int) (st : CPDFHttpClient) :
    Except Err String × CPDFHttpClient × List Effect :=
  if st.expire_time < 0 ∨ st.expire_time < now ∨ st.access_token = "" then
    match refresh_access_token env now st with
    | (.ok (), st2, tr) => (.ok st2.access_token, st2, tr)
    | (.error e, st2, tr) => (.error e, st2, tr)
  else (.ok st.access_token, st, [])

/-- The constructor of `CPDFHttpClient`: initialize the fields and then
call `refresh_access_token` (so construction itself performs the auth
exchange). -/
def construct (env : HttpEnv) (now : Int)
    (public_key secret_key : String) (connection_timeout : Int) :
    Except Err CPDFHttpClient × List Effect :=
  let st0 : CPDFHttpClient :=
    { expire_time := -1, access_token := "", public_key := public_key,
      secret_key := secret_key, connect_timeout := connection_timeout }
  match refresh_access_token env now st0 with
  | (.ok (), st1, tr) => (.ok st1, tr)
  | (.error e, _, tr) => (.error e, tr)

/-- The GET request issued by `get_tools`: note `requests.get(url)` with no
headers at all. -/
def toolsRequest : HttpRequest :=
  { method := "GET", url := ADDRESS ++ API_V1_TOOL_SUPPORT,
    headers := [], params := [], jsonBody := [], formData := [] }

/-- `get_tools`: the catalog query; wraps each element of the `data` array.
The source calls `requests.get(url)` without `_basic_headers`. -/
def get_tools (env : HttpEnv) (_st : CPDFHttpClient) :
    Except Err (List CPDFTool) × List Effect :=
  let req := toolsRequest
  let response := env req
  (if response.status = 200 then
    match response.data with
    | .arr elems => .ok (elems.map CPDFTool.mk)
    | _ => .error .pyTypeError
   else .error (.apiError response.code response.msg),
   [Effect.httpRequest req])

/-- The GET request issued by `get_file_info`. -/
def fileInfoRequest (st : CPDFHttpClient) (file_key : String) (language : Int) :
    HttpRequest :=
  { method := "GET", url := ADDRESS ++ API_V1_FILE_INFO,
    headers := st.basic_headers,
    params := [("fileKey", file_key), ("language", toString language)],
    jsonBody := [], formData := [] }

/-- `get_file_info`: resolve a file key to its descriptor. -/
def get_file_info (env : HttpEnv) (st : CPDFHttpClient)
    (file_key : String) (language : Int) :
    Except Err CPDFFileInfo × List Effect :=
  let req := fileInfoRequest st file_key language
  let response := env req
  (if response.status = 200 then .ok (CPDFFileInfo.mk response.data)
   else .error (.apiError response.code response.msg),
   [Effect.httpRequest req])

/-- The GET request issued by `get_asset_info`. -/
def assetInfoRequest (st : CPDFHttpClient) : HttpRequest :=
  { method := "GET", url := ADDRESS ++ API_V1_ASSET_INFO,
    headers := st.basic_headers, params := [], jsonBody := [], formData := [] }

/-- `get_asset_info`: returns the raw `data` payload. -/
def get_asset_info (env : HttpEnv) (st : CPDFHttpClient) :
    Except Err JsonVal × List Effect :=
  let req := assetInfoRequest st
  let response := env req
  (if response.status = 200 then .ok response.data
   else .error (.apiError response.code response.msg),
   [Effect.httpRequest req])

/-- The GET request issued by `get_task_list`. -/
def taskListRequest (st : CPDFHttpClient) (page size : String) : HttpRequest :=
  { method := "GET", url := ADDRESS ++ API_V1_TASK_LIST,
    headers := st.basic_headers,
    params := [("page", page), ("pageSize", size)],
    jsonBody := [], formData := [] }

/-- `get_task_list`: returns the raw `data` payload. -/
def get_task_list (env : HttpEnv) (st : CPDFHttpClient) (page size : String) :
    Except Err JsonVal × List Effect :=
  let req := taskListRequest st page size
  let response := env req
  (if response.status = 200 then .ok response.data
   else .error (.apiError response.code response.msg),
   [Effect.httpRequest req])

/-- The GET request issued by `create_task`: path templated by the execute
type URL, query carrying the language. -/
def createTaskRequest (st : CPDFHttpClient) (execute_type_url : String)
    (language : Int) : HttpRequest :=
  { method := "GET", url := ADDRESS ++ API_V1_CREATE_TASK execute_type_url,
    headers := st.basic_headers,
    params := [("language", toString language)],
    jsonBody := [], formData := [] }

/-- `create_task` (transport level): issue the templated GET and parse the
`taskId` from the payload. -/
def create_task (env : HttpEnv) (st : CPDFHttpClient)
    (execute_type_url : String) (language : Int) :
    Except Err CPDFCreateTaskResult × List Effect :=
  let req := createTaskRequest st execute_type_url language
  let response := env req
  (if response.status = 200 then
    match CPDFCreateTaskResult.ofJson response.data with
    | some r => .ok r
    | none => .error .pyKeyError
   else .error (.apiError response.code response.msg),
   [Effect.httpRequest req])

/-- The GET request issued by `execute_task`. -/
def executeTaskRequest (st : CPDFHttpClient) (task_id : String)
    (language : Int) : HttpRequest :=
  { method := "GET", url := ADDRESS ++ API_V1_EXECUTE_TASK,
    headers := st.basic_headers,
    params := [("taskId", task_id), ("language", toString language)],
    jsonBody := [], formData := [] }

/-- `execute_task`: start processing; the payload parses as a
`CPDFCreateTaskResult` in the source. -/
def execute_task (env : HttpEnv) (st : CPDFHttpClient)
    (task_id : String) (language : Int) :
    Except Err CPDFCreateTaskResult × List Effect :=
  let req := executeTaskRequest st task_id language
  let response := env req
  (if response.status = 200 then
    match CPDFCreateTaskResult.ofJson response.data with
    | some r => .ok r
    | none => .error .pyKeyError
   else .error (.apiError response.code response.msg),
   [Effect.httpRequest req])

/-- The GET request issued by `get_task_info`. -/
def taskInfoRequest (st : CPDFHttpClient) (task_id : String)
    (language : Int) : HttpRequest :=
  { method := "GET", url := ADDRESS ++ API_V1_TASK_INFO,
    headers := st.basic_headers,
    params := [("taskId", task_id), ("language", toString language)],
    jsonBody := [], formData := [] }

/-- `get_task_info`: single-shot status poll. -/
def get_task_info (env : HttpEnv) (st : CPDFHttpClient)
    (task_id : String) (language : Int) :
    Except Err CPDFTaskInfoResult × List Effect :=
  let req := taskInfoRequest st task_id language
  let response := env req
  (if response.status = 200 then
    match CPDFTaskInfoResult.ofJson response.data with
    | some r => .ok r
    | none => .error .pyKeyError
   else .error (.apiError response.code response.msg),
   [Effect.httpRequest req])

/-- The multipart form fields of the upload request, in insertion order:
`taskId`, `file`, `language`, then `password` if truthy, `parameter` if a
parameter object is given, and `image` if both image arguments are truthy. -/
def uploadFormData (task_id file_name file : String)
    (language : Int) (password : Option String)
    (file_parameter : Option CPDFFileParameter)
    (image image_file_name : Option String) : List (String × FormValue) :=
  [("taskId", FormValue.str task_id),
   ("file", FormValue.filePart file_name file),
   ("language", FormValue.str (toString language))]
  ++ (if truthyOptStr password then
        [("password", FormValue.str (password.getD ""))] else [])
  ++ (match file_parameter with
      | some p => [("parameter", FormValue.str p.to_cpdf_json_str)]
      | none => [])
  ++ (if truthyOptStr image && truthyOptStr image_file_name then
        [("image", FormValue.filePart (image_file_name.getD "") (image.getD ""))]
      else [])

/-- The POST request issued by `get_upload_file_result`: multipart body,
basic headers plus the encoder's content type. -/
def uploadRequest (st : CPDFHttpClient) (task_id file_name file : String)
    (language : Int) (password : Option String)
    (file_parameter : Option CPDFFileParameter)
    (image image_file_name : Option String) : HttpRequest :=
  { method := "POST", url := ADDRESS ++ API_V1_UPLOAD_FILE,
    headers := st.basic_headers ++ [("Content-Type", "multipart/form-data")],
    params := [], jsonBody := [],
    formData := uploadFormData task_id file_name file language password
      file_parameter image image_file_name }

/-- `get_upload_file_result` (the upload primitive): rejects a missing task
id before anything else, derives the file name by splitting the path when
none is supplied, opens the file (and the image when both image arguments
are truthy), and posts the multipart request. -/
def get_upload_file_result (env : HttpEnv) (st : CPDFHttpClient)
    (file : String) (task_id : Option String)
    (password : Option String) (file_parameter : Option CPDFFileParameter)
    (file_name : Option String) (image : Option String)
    (image_file_name : Option String) (language : Int) :
    Except Err CPDFUploadFileResult × List Effect :=
  match task_id with
  | none => (.error (.localError "The task id is required."), [])
  | some tid =>
    let fname := match file_name with
      | some n => n
      | none => (os_path_split file).2
    let opens :=
      [Effect.openFile file]
      ++ (if truthyOptStr image && truthyOptStr image_file_name then
            [Effect.openFile (image.getD "")] else [])
    let req := uploadRequest st tid fname file language password
      file_parameter image image_file_name
    let response := env req
    (if response.status = 200 then
      match CPDFUploadFileResult.ofJson response.data with
      | some r => .ok r
      | none => .error .pyKeyError
     else .error (.apiError response.code response.msg),
     opens ++ [Effect.httpRequest req])

end CPDFHttpClient

/-- Modelled from the spec: the `enums` module is not under `src/`.  The
closed catalog of conversion operations; members carry the endpoint-path
value used to template the create-task URL.  Members are those exercised by
the repository's samples. -/
inductive CPDFConversionEnum where
  | DOCX_TO_PDF
  | PPTX_TO_PDF
  | PDF_TO_PNG
  | PNG_TO_PDF
deriving Repr, DecidableEq

/-- Modelled from the spec: the endpoint-path value of a conversion
member. -/
def CPDFConversionEnum.value : CPDFConversionEnum → String
  | .DOCX_TO_PDF => "docx/pdf"
  | .PPTX_TO_PDF => "pptx/pdf"
  | .PDF_TO_PNG => "pdf/png"
  | .PNG_TO_PDF => "png/pdf"

/-- Modelled from the spec: the closed catalog of document-AI operations. -/
inductive CPDFDocumentAIEnum where
  | DEWARP
  | TRIM_CORRECTION
deriving Repr, DecidableEq

/-- Modelled from the spec: the endpoint-path value of a document-AI
member. -/
def CPDFDocumentAIEnum.value : CPDFDocumentAIEnum → String
  | .DEWARP => "documentAI/dewarp"
  | .TRIM_CORRECTION => "documentAI/trimCorrection"

/-- Modelled from the spec: the closed catalog of document-editor
operations. -/
inductive CPDFDocumentEditorEnum where
  | COMPRESS
  | SPLIT
  | MERGE
deriving Repr, DecidableEq

/-- Modelled from the spec: the endpoint-path value of a document-editor
member. -/
def CPDFDocumentEditorEnum.value : CPDFDocumentEditorEnum → String
  | .COMPRESS => "pdf/compress"
  | .SPLIT => "pdf/split"
  | .MERGE => "pdf/merge"

/-- The dynamically-typed `task_object` argument of
`CPDFClient.create_task`: a string, a member of one of the three tool
catalogs, or any other Python value (`other`). -/
inductive TaskObject where
  | str (s : String)
  | conversion (e : CPDFConversionEnum)
  | documentAI (e : CPDFDocumentAIEnum)
  | documentEditor (e : CPDFDocumentEditorEnum)
  | other (descr : String)
deriving Repr, DecidableEq

namespace CPDFClient

/-- `CPDFClient.create_task`: a string is forwarded with the given
language; an enum member recurses as `self.create_task(task_object.value)`,
taking the string branch with the DEFAULT language (the supplied language
argument is dropped); any other value raises
`CPDFException(cause="The task object is not a valid type.")` without any
network call. -/
def create_task (env : HttpEnv) (st : CPDFHttpClient) :
    TaskObject → Int → Except Err CPDFCreateTaskResult × List Effect
  | .str s, language => CPDFHttpClient.create_task env st s language
  | .conversion e, _ =>
    CPDFHttpClient.create_task env st e.value CPDFLanguageConstant.ENGLISH
  | .documentAI e, _ =>
    CPDFHttpClient.create_task env st e.value CPDFLanguageConstant.ENGLISH
  | .documentEditor e, _ =>
    CPDFHttpClient.create_task env st e.value CPDFLanguageConstant.ENGLISH
  | .other _, _ =>
    (.error (.localError "The task object is not a valid type."), [])

/-- `CPDFClient._get_upload_file_result`: split the file path into
directory and name; when `image_file_name` is absent, compute it by
splitting `image` — with `image` also absent this is `os.path.split(None)`,
a Python `TypeError`; otherwise delegate to the upload primitive. -/
def get_upload_file_result_client (env : HttpEnv) (st : CPDFHttpClient)
    (file : String) (task_id : Option String)
    (password : Option String) (file_parameter : Option CPDFFileParameter)
    (image : Option String) (image_file_name : Option String)
    (language : Int) :
    Except Err CPDFUploadFileResult × List Effect :=
  let file_name := (os_path_split file).2
  match image_file_name with
  | some ifn =>
    CPDFHttpClient.get_upload_file_result env st file task_id password
      file_parameter (some file_name) image (some ifn) language
  | none =>
    match image with
    | none => (.error .pyTypeError, [])
    | some img =>
      let ifn := (os_path_split img).2
      CPDFHttpClient.get_upload_file_result env st file task_id password
        file_parameter (some file_name) (some img) (some ifn) language

/-- `CPDFClient.upload_file`: delegates to `_get_upload_file_result` with
its arguments (the optional ones default to absent). -/
def upload_file (env : HttpEnv) (st : CPDFHttpClient)
    (file : String) (task_id : Option String)
    (password : Option String) (file_parameter : Option CPDFFileParameter)
    (image : Option String) (image_file_name : Option String) :
    Except Err CPDFUploadFileResult × List Effect :=
  get_upload_file_result_client env st file task_id password file_parameter
    image image_file_name CPDFLanguageConstant.ENGLISH

end CPDFClient

/-- Is this effect an HTTP request to the authentication endpoint? -/
def isAuthRequestEffect : Effect → Bool
  | .httpRequest r => r.url == CPDFHttpClient.ADDRESS ++ API_V1_OAUTH_TOKEN
  | _ => false

/-- Number of authentication-exchange requests in an effect trace. -/
def countAuthRequests (tr : List Effect) : Nat :=
  (tr.filter isAuthRequestEffect).length

/-- The trace contains at least one HTTP request, and every HTTP request in
it carries the header `Authorization: Bearer <tok>`. -/
def SendsBearer (tok : String) (tr : List Effect) : Prop :=
  (∃ r, Effect.httpRequest r ∈ tr) ∧
  ∀ r, Effect.httpRequest r ∈ tr →
    ("Authorization", "Bearer " ++ tok) ∈ r.headers

/-- A well-formed auth payload used as a concrete server answer. -/
def okAuthData : JsonVal :=
  .obj [("accessToken", .str "tokNew"), ("expiresIn", .num 86400)]

/-- A generic success payload carrying the fields the result parsers
read. -/
def okOpData : JsonVal :=
  .obj [("taskId", .str "tid1"), ("fileKey", .str "fk1"),
        ("taskStatus", .str "TaskFinish")]

/-- A concrete healthy server: status 200 everywhere, auth payload on the
auth endpoint and a generic payload elsewhere. -/
def envOK : HttpEnv := fun req =>
  if req.url == CPDFHttpClient.ADDRESS ++ API_V1_OAUTH_TOKEN then
    { status := 200, code := "200", msg := "success", data := okAuthData }
  else
    { status := 200, code := "200", msg := "success", data := okOpData }

/-- A concrete failing server: every request is answered with status 500
and envelope code `4001001`, msg `bad token`. -/
def env500 : HttpEnv := fun _ =>
  { status := 500, code := "4001001", msg := "bad token", data := JsonVal.null }

/-- A concrete client state holding an unexpired token. -/
def stFresh : CPDFHttpClient :=
  { expire_time := 10000, access_token := "tok0",
    public_key := "pk", secret_key := "sk", connect_timeout := -1 }

/-- A concrete client state whose token expiry (1000 ms) has already
elapsed at wall time 2000 ms. -/
def stStale : CPDFHttpClient :=
  { expire_time := 1000, access_token := "tok0",
    public_key := "pk", secret_key := "sk", connect_timeout := -1 }

/-- A concrete client state whose token expiry equals the current instant
(2000 ms): by the data-model invariant (valid iff now < expiry) this token
is no longer valid. -/
def stBoundary : CPDFHttpClient :=
  { expire_time := 2000, access_token := "tokOld",
    public_key := "pk", secret_key := "sk", connect_timeout := -1 }

/-- A concrete freshly-initialized state (no token held, sentinel
expiry). -/
def stEmpty : CPDFHttpClient :=
  { expire_time := -1, access_token := "",
    public_key := "pk", secret_key := "sk", connect_timeout := -1 }

/-- C4: an argument that is neither a string nor a member of the three tool
catalogs makes `create_task` raise the invalid-type `CPDFException`
(the spec's `InvalidArgumentError`) with an empty effect trace, so no
network call is issued. -/
theorem C4_create_task_invalid_type_no_network (env : HttpEnv)
    (st : CPDFHttpClient) (d : String) (language : Int) :
    CPDFClient.create_task env st (TaskObject.other d) language
      = (.error (.localError "The task object is not a valid type."), []) :=
  rfl

/-- C6 (code bug): calling `upload_file` with both `image` and
`image_file_name` omitted fails locally with a Python `TypeError` from
`os.path.split(None)` and an empty effect trace — the multipart upload
never reaches the HTTP request, contradicting the claim. -/
theorem C6_upload_without_image_args_raises_type_error (env : HttpEnv)
    (st : CPDFHttpClient) (file : String) (task_id : Option String)
    (password : Option String) (file_parameter : Option CPDFFileParameter) :
    CPDFClient.upload_file env st file task_id password file_parameter
      none none
      = (.error .pyTypeError, []) :=
  rfl

/-- C8: a non-200 response to the authentication exchange makes
`get_compdfkit_auth` raise `CPDFException` carrying the response envelope's
own `code` and `msg`, and the effect trace holds exactly the one auth
request — no automatic retry. -/
theorem C8_auth_failure_typed_error_no_retry (env : HttpEnv)
    (public_key secret_key : String)
    (h : (env (CPDFHttpClient.authRequest public_key secret_key)).status ≠ 200) :
    CPDFHttpClient.get_compdfkit_auth env public_key secret_key
      = (.error (.apiError
           (env (CPDFHttpClient.authRequest public_key secret_key)).code
           (env (CPDFHttpClient.authRequest public_key secret_key)).msg),
         [Effect.httpRequest (CPDFHttpClient.authRequest public_key secret_key)]) := by
  simp [CPDFHttpClient.get_compdfkit_auth, h]

/-- C8 witness: against the concrete failing server the exchange raises
with code 4001001 and message `bad token` after a single request. -/
theorem C8_auth_failure_witness :
    CPDFHttpClient.get_compdfkit_auth env500 "pk" "sk"
      = (.error (.apiError "4001001" "bad token"),
         [Effect.httpRequest (CPDFHttpClient.authRequest "pk" "sk")]) :=
  C8_auth_failure_typed_error_no_retry env500 "pk" "sk" (by decide)

/-- C9 counterexample: constructing the client against the healthy server
performs one authentication exchange (the constructor calls
`refresh_access_token`), refuting the claim that construction performs
none. -/
theorem C9_construction_counterexample :
    countAuthRequests (CPDFHttpClient.construct envOK 0 "pk" "sk" (-1)).2 = 1 :=
  rfl

/-- C9 amended: for every environment, construction performs exactly one
authentication exchange eagerly — its effect trace is precisely the one
auth request, whatever the outcome. -/
theorem C9_construct_exactly_one_exchange (env : HttpEnv) (now : Int)
    (public_key secret_key : String) (connection_timeout : Int) :
    (CPDFHttpClient.construct env now public_key secret_key
        connection_timeout).2
      = [Effect.httpRequest
          (CPDFHttpClient.authRequest public_key secret_key)] := by
  by_cases h :
      (env (CPDFHttpClient.authRequest public_key secret_key)).status = 200
  · cases hp : CPDFOauthResult.ofJson
        (env (CPDFHttpClient.authRequest public_key secret_key)).data with
    | none =>
      simp [CPDFHttpClient.construct, CPDFHttpClient.refresh_access_token,
            CPDFHttpClient.get_compdfkit_auth, h, hp]
    | some r =>
      simp [CPDFHttpClient.construct, CPDFHttpClient.refresh_access_token,
            CPDFHttpClient.get_compdfkit_auth, h, hp]
  · simp [CPDFHttpClient.construct, CPDFHttpClient.refresh_access_token,
          CPDFHttpClient.get_compdfkit_auth, h]

/-- C10: the upload primitive called with `task_id` absent (and a supplied
file name) raises the local `CPDFException` with cause
`The task id is required.` and an empty effect trace: the file is never
opened and no request is issued. -/
theorem C10_upload_primitive_requires_task_id (env : HttpEnv)
    (st : CPDFHttpClient) (file : String) (password : Option String)
    (file_parameter : Option CPDFFileParameter) (fname : String)
    (image image_file_name : Option String) (language : Int) :
    CPDFHttpClient.get_upload_file_result env st file none password
      file_parameter (some fname) image image_file_name language
      = (.error (.localError "The task id is required."), []) :=
  rfl

/-- A trace consisting of one HTTP request whose headers contain the bearer
pair satisfies `SendsBearer`. -/
theorem sendsBearer_single (tok : String) (r : HttpRequest)
    (h : ("Authorization", "Bearer " ++ tok) ∈ r.headers) :
    SendsBearer tok [Effect.httpRequest r] := by
  refine ⟨⟨r, by simp⟩, ?_⟩
  intro q hq
  simp only [List.mem_singleton, Effect.httpRequest.injEq] at hq
  subst hq
  exact h

/-- C1 (code bug): at wall time 2000 the cached token of `stStale` is
expired (its expiry is 1000), yet `get_task_info` builds its headers from
the raw cached token via `_basic_headers` without ever calling
`get_access_token`: its trace is the single task-info request, contains no
authentication exchange, and the Authorization header still carries the
stale token. -/
theorem C1_expired_token_sent_without_refresh :
    stStale.expire_time < 2000 ∧
    (CPDFHttpClient.get_task_info envOK stStale "taskA"
        CPDFLanguageConstant.ENGLISH).2
      = [Effect.httpRequest (CPDFHttpClient.taskInfoRequest stStale "taskA"
          CPDFLanguageConstant.ENGLISH)] ∧
    countAuthRequests (CPDFHttpClient.get_task_info envOK stStale "taskA"
        CPDFLanguageConstant.ENGLISH).2 = 0 ∧
    (CPDFHttpClient.taskInfoRequest stStale "taskA"
        CPDFLanguageConstant.ENGLISH).headers
      = [("Authorization", "Bearer tok0")] := by
  refine ⟨by decide, rfl, by decide, rfl⟩

/-- C2 counterexample: `get_tools` issues its request with an empty header
list — `requests.get(url)` without `_basic_headers` — so its invocation
does not send the `Authorization: Bearer` header. -/
theorem C2_get_tools_sends_no_auth_header :
    (CPDFHttpClient.get_tools envOK stFresh).2
      = [Effect.httpRequest CPDFHttpClient.toolsRequest] ∧
    CPDFHttpClient.toolsRequest.headers = [] ∧
    ¬ SendsBearer stFresh.access_token (CPDFHttpClient.get_tools envOK stFresh).2 := by
  refine ⟨rfl, rfl, ?_⟩
  rintro ⟨-, hall⟩
  have h2 := hall CPDFHttpClient.toolsRequest
    (by simp [CPDFHttpClient.get_tools])
  simp [CPDFHttpClient.toolsRequest] at h2

/-- C2 amended: every authenticated operation except `get_tools` —
`get_file_info`, `get_asset_info`, `get_task_list`, `create_task`,
`upload_file`, `execute_task`, `get_task_info` — sends the
`Authorization: Bearer <cached token>` header on every invocation;
`get_tools` (and the auth exchange) send no such header. -/
theorem C2_authenticated_ops_send_bearer (env : HttpEnv)
    (st : CPDFHttpClient)
    (file_key page size execute_type_url task_id file fname : String)
    (password : Option String) (file_parameter : Option CPDFFileParameter)
    (image image_file_name : Option String) (language : Int) :
    SendsBearer st.access_token
      (CPDFHttpClient.get_file_info env st file_key language).2 ∧
    SendsBearer st.access_token
      (CPDFHttpClient.get_asset_info env st).2 ∧
    SendsBearer st.access_token
      (CPDFHttpClient.get_task_list env st page size).2 ∧
    SendsBearer st.access_token
      (CPDFHttpClient.create_task env st execute_type_url language).2 ∧
    SendsBearer st.access_token
      (CPDFHttpClient.get_upload_file_result env st file (some task_id)
        password file_parameter (some fname) image image_file_name
        language).2 ∧
    SendsBearer st.access_token
      (CPDFHttpClient.execute_task env st task_id language).2 ∧
    SendsBearer st.access_token
      (CPDFHttpClient.get_task_info env st task_id language).2 := by
  refine ⟨?_, ?_, ?_, ?_, ?_, ?_, ?_⟩
  · exact sendsBearer_single _ _ (by simp [CPDFHttpClient.fileInfoRequest,
      CPDFHttpClient.basic_headers])
  · exact sendsBearer_single _ _ (by simp [CPDFHttpClient.assetInfoRequest,
      CPDFHttpClient.basic_headers])
  · exact sendsBearer_single _ _ (by simp [CPDFHttpClient.taskListRequest,
      CPDFHttpClient.basic_headers])
  · exact sendsBearer_single _ _ (by simp [CPDFHttpClient.createTaskRequest,
      CPDFHttpClient.basic_headers])
  · refine ⟨⟨CPDFHttpClient.uploadRequest st task_id fname file language
        password file_parameter image image_file_name, ?_⟩, ?_⟩
    · cases hc : truthyOptStr image && truthyOptStr image_file_name with
      | true => simp [CPDFHttpClient.get_upload_file_result, hc]
      | false => simp [CPDFHttpClient.get_upload_file_result, hc]
    · intro q hq
      cases hc : truthyOptStr image && truthyOptStr image_file_name with
      | true =>
        simp [CPDFHttpClient.get_upload_file_result, hc] at hq
        subst hq
        simp [CPDFHttpClient.uploadRequest, CPDFHttpClient.basic_headers]
      | false =>
        simp [CPDFHttpClient.get_upload_file_result, hc] at hq
        subst hq
        simp [CPDFHttpClient.uploadRequest, CPDFHttpClient.basic_headers]
  · exact sendsBearer_single _ _ (by simp [CPDFHttpClient.executeTaskRequest,
      CPDFHttpClient.basic_headers])
  · exact sendsBearer_single _ _ (by simp [CPDFHttpClient.taskInfoRequest,
      CPDFHttpClient.basic_headers])

/-- C5 (code bug): `create_task` on a catalog member recurses as
`self.create_task(task_object.value)` and drops the supplied language: with
Chinese (2) requested, the issued request's URL is correctly templated by
the member's endpoint-path value, but its `language` query parameter is the
default English ("1"), and the server-issued task id is returned. -/
theorem C5_enum_create_task_drops_language :
    CPDFLanguageConstant.CHINESE = 2 ∧
    (CPDFClient.create_task envOK stFresh
        (TaskObject.conversion CPDFConversionEnum.DOCX_TO_PDF)
        CPDFLanguageConstant.CHINESE).2
      = [Effect.httpRequest (CPDFHttpClient.createTaskRequest stFresh
          "docx/pdf" CPDFLanguageConstant.ENGLISH)] ∧
    (CPDFHttpClient.createTaskRequest stFresh "docx/pdf"
        CPDFLanguageConstant.ENGLISH).url
      = CPDFHttpClient.ADDRESS ++ "v1/task/docx/pdf" ∧
    (CPDFHttpClient.createTaskRequest stFresh "docx/pdf"
        CPDFLanguageConstant.ENGLISH).params = [("language", "1")] ∧
    (CPDFClient.create_task envOK stFresh
        (TaskObject.conversion CPDFConversionEnum.DOCX_TO_PDF)
        CPDFLanguageConstant.CHINESE).1
      = .ok (CPDFCreateTaskResult.mk "tid1") :=
  ⟨rfl, rfl, rfl, rfl, rfl⟩

/-- C7 counterexample: with valid credentials (`envOK`), at the instant
`now = 2000` equal to the cached expiry, `get_access_token` keeps the held
token — the guard is the strict `expire_time < now` — and returns it with
no refresh (empty trace), so the returned cached expiry is NOT strictly in
the future, and the token (invalid by the data-model rule
`valid iff now < expiry`) is returned as-is. -/
theorem C7_boundary_expiry_returned_as_is :
    (CPDFHttpClient.get_access_token envOK 2000 stBoundary).1 = .ok "tokOld" ∧
    (CPDFHttpClient.get_access_token envOK 2000 stBoundary).2.1 = stBoundary ∧
    (CPDFHttpClient.get_access_token envOK 2000 stBoundary).2.2 = [] ∧
    ¬ (2000 < (CPDFHttpClient.get_access_token envOK 2000 stBoundary).2.1.expire_time) := by
  refine ⟨rfl, rfl, rfl, by decide⟩

/-- C7 amended: with valid credentials and a positive server lifetime,
`get_access_token` succeeds and the cached expiry at return is at least
(not necessarily strictly above) the current time; whenever the held token
has a negative expiry sentinel, an expiry strictly below now, or is empty,
it is replaced, and the replacement's expiry `lifetime * 1000 + now` is
strictly in the future. -/
theorem C7_get_access_token_valid_on_return (env : HttpEnv) (now : Int)
    (st : CPDFHttpClient) (tok : String) (lifetime : Int)
    (hstatus : (env (CPDFHttpClient.authRequest st.public_key
        st.secret_key)).status = 200)
    (hparse : CPDFOauthResult.ofJson
        (env (CPDFHttpClient.authRequest st.public_key st.secret_key)).data
      = some (CPDFOauthResult.mk tok lifetime))
    (hpos : 1 ≤ lifetime) :
    (CPDFHttpClient.get_access_token env now st).1
      = .ok (CPDFHttpClient.get_access_token env now st).2.1.access_token ∧
    now ≤ (CPDFHttpClient.get_access_token env now st).2.1.expire_time ∧
    ((st.expire_time < 0 ∨ st.expire_time < now ∨ st.access_token = "") →
      (CPDFHttpClient.get_access_token env now st).2.1.access_token = tok ∧
      (CPDFHttpClient.get_access_token env now st).2.1.expire_time
        = lifetime * 1000 + now ∧
      now < (CPDFHttpClient.get_access_token env now st).2.1.expire_time) := by
  by_cases hc : st.expire_time < 0 ∨ st.expire_time < now ∨ st.access_token = ""
  · have hmain :
        (CPDFHttpClient.get_access_token env now st).2.1
          = CPDFHttpClient.set_access_token st now tok lifetime ∧
        (CPDFHttpClient.get_access_token env now st).1
          = .ok (CPDFHttpClient.set_access_token st now tok lifetime).access_token := by
      simp [CPDFHttpClient.get_access_token, hc,
        CPDFHttpClient.refresh_access_token,
        CPDFHttpClient.get_compdfkit_auth, hstatus, hparse]
    refine ⟨?_, ?_, ?_⟩
    · rw [hmain.2, hmain.1]
    · rw [hmain.1]
      simp only [CPDFHttpClient.set_access_token]
      omega
    · intro _
      rw [hmain.1]
      simp only [CPDFHttpClient.set_access_token]
      exact ⟨trivial, trivial, by omega⟩
  · have hres : CPDFHttpClient.get_access_token env now st
        = (.ok st.access_token, st, []) := by
      unfold CPDFHttpClient.get_access_token
      rw [if_neg hc]
    push_neg at hc
    rw [hres]
    refine ⟨rfl, ?_, ?_⟩
    · show now ≤ st.expire_time
      exact hc.2.1
    · intro habs
      rcases habs with h | h | h
      · exact absurd h (by omega)
      · exact absurd h (by omega)
      · exact absurd h hc.2.2

/-- C7 witness: starting from the fresh state (no token, sentinel expiry)
at wall time 5000 against the healthy server, the refreshed token is the
server's `tokNew` and its cached expiry `86400 * 1000 + 5000` is strictly
in the future. -/
theorem C7_valid_on_return_witness :
    (CPDFHttpClient.get_access_token envOK 5000 stEmpty).2.1.access_token
      = "tokNew" ∧
    (CPDFHttpClient.get_access_token envOK 5000 stEmpty).2.1.expire_time
      = 86400 * 1000 + 5000 ∧
    (5000 : Int)
      < (CPDFHttpClient.get_access_token envOK 5000 stEmpty).2.1.expire_time :=
  (C7_get_access_token_valid_on_return envOK 5000 stEmpty "tokNew" 86400
    (by decide) (by decide) (by decide)).2.2 (Or.inl (by decide))

/-- C3: every transport operation raises, on a non-200 response,
`CPDFException` carrying the response envelope's own `code` and `msg`
unmodified; on a 200 response it returns the parsed `data` payload (shown
unconditionally for the raw-payload operation and under parse success for
the wrapped ones). -/
theorem C3_error_envelope_passthrough (env : HttpEnv) (st : CPDFHttpClient)
    (public_key secret_key file_key page size execute_type_url task_id
      file fname : String)
    (password : Option String) (file_parameter : Option CPDFFileParameter)
    (image image_file_name : Option String) (language : Int)
    (ti : CPDFTaskInfoResult) (uf : CPDFUploadFileResult) :
    ((env (CPDFHttpClient.taskInfoRequest st task_id language)).status ≠ 200 →
      (CPDFHttpClient.get_task_info env st task_id language).1
        = .error (.apiError
            (env (CPDFHttpClient.taskInfoRequest st task_id language)).code
            (env (CPDFHttpClient.taskInfoRequest st task_id language)).msg)) ∧
    ((env (CPDFHttpClient.taskInfoRequest st task_id language)).status = 200 →
      CPDFTaskInfoResult.ofJson
          (env (CPDFHttpClient.taskInfoRequest st task_id language)).data
        = some ti →
      (CPDFHttpClient.get_task_info env st task_id language).1 = .ok ti) ∧
    ((env (CPDFHttpClient.uploadRequest st task_id fname file language
        password file_parameter image image_file_name)).status ≠ 200 →
      (CPDFHttpClient.get_upload_file_result env st file (some task_id)
          password file_parameter (some fname) image image_file_name
          language).1
        = .error (.apiError
            (env (CPDFHttpClient.uploadRequest st task_id fname file language
              password file_parameter image image_file_name)).code
            (env (CPDFHttpClient.uploadRequest st task_id fname file language
              password file_parameter image image_file_name)).msg)) ∧
    ((env (CPDFHttpClient.uploadRequest st task_id fname file language
        password file_parameter image image_file_name)).status = 200 →
      CPDFUploadFileResult.ofJson
          (env (CPDFHttpClient.uploadRequest st task_id fname file language
            password file_parameter image image_file_name)).data
        = some uf →
      (CPDFHttpClient.get_upload_file_result env st file (some task_id)
          password file_parameter (some fname) image image_file_name
          language).1
        = .ok uf) ∧
    ((env (CPDFHttpClient.authRequest public_key secret_key)).status ≠ 200 →
      (CPDFHttpClient.get_compdfkit_auth env public_key secret_key).1
        = .error (.apiError
            (env (CPDFHttpClient.authRequest public_key secret_key)).code
            (env (CPDFHttpClient.authRequest public_key secret_key)).msg)) ∧
    ((env CPDFHttpClient.toolsRequest).status ≠ 200 →
      (CPDFHttpClient.get_tools env st).1
        = .error (.apiError (env CPDFHttpClient.toolsRequest).code
            (env CPDFHttpClient.toolsRequest).msg)) ∧
    ((env (CPDFHttpClient.fileInfoRequest st file_key language)).status ≠ 200 →
      (CPDFHttpClient.get_file_info env st file_key language).1
        = .error (.apiError
            (env (CPDFHttpClient.fileInfoRequest st file_key language)).code
            (env (CPDFHttpClient.fileInfoRequest st file_key language)).msg)) ∧
    ((env (CPDFHttpClient.assetInfoRequest st)).status ≠ 200 →
      (CPDFHttpClient.get_asset_info env st).1
        = .error (.apiError (env (CPDFHttpClient.assetInfoRequest st)).code
            (env (CPDFHttpClient.assetInfoRequest st)).msg)) ∧
    ((env (CPDFHttpClient.assetInfoRequest st)).status = 200 →
      (CPDFHttpClient.get_asset_info env st).1
        = .ok (env (CPDFHttpClient.assetInfoRequest st)).data) ∧
    ((env (CPDFHttpClient.taskListRequest st page size)).status ≠ 200 →
      (CPDFHttpClient.get_task_list env st page size).1
        = .error (.apiError
            (env (CPDFHttpClient.taskListRequest st page size)).code
            (env (CPDFHttpClient.taskListRequest st page size)).msg)) ∧
    ((env (CPDFHttpClient.createTaskRequest st execute_type_url
        language)).status ≠ 200 →
      (CPDFHttpClient.create_task env st execute_type_url language).1
        = .error (.apiError
            (env (CPDFHttpClient.createTaskRequest st execute_type_url
              language)).code
            (env (CPDFHttpClient.createTaskRequest st execute_type_url
              language)).msg)) ∧
    ((env (CPDFHttpClient.executeTaskRequest st task_id language)).status
        ≠ 200 →
      (CPDFHttpClient.execute_task env st task_id language).1
        = .error (.apiError
            (env (CPDFHttpClient.executeTaskRequest st task_id
              language)).code
            (env (CPDFHttpClient.executeTaskRequest st task_id
              language)).msg)) := by
  refine ⟨?_, ?_, ?_, ?_, ?_, ?_, ?_, ?_, ?_, ?_, ?_, ?_⟩
  · intro h
    simp [CPDFHttpClient.get_task_info, h]
  · intro h hp
    simp [CPDFHttpClient.get_task_info, h, hp]
  · intro h
    simp [CPDFHttpClient.get_upload_file_result, h]
  · intro h hp
    simp [CPDFHttpClient.get_upload_file_result, h, hp]
  · intro h
    simp [CPDFHttpClient.get_compdfkit_auth, h]
  · intro h
    simp [CPDFHttpClient.get_tools, h]
  · intro h
    simp [CPDFHttpClient.get_file_info, h]
  · intro h
    simp [CPDFHttpClient.get_asset_info, h]
  · intro h
    simp [CPDFHttpClient.get_asset_info, h]
  · intro h
    simp [CPDFHttpClient.get_task_list, h]
  · intro h
    simp [CPDFHttpClient.create_task, h]
  · intro h
    simp [CPDFHttpClient.execute_task, h]

/-- C3 witness: against the concrete failing server, `get_task_info` and
the upload primitive raise with exactly code 4001001 and message
`bad token`; against the healthy server, `get_task_info` returns the
parsed payload. -/
theorem C3_error_envelope_passthrough_witness :
    (CPDFHttpClient.get_task_info env500 stFresh "t" 1).1
      = .error (.apiError "4001001" "bad token") ∧
    (CPDFHttpClient.get_upload_file_result env500 stFresh "d/f.pdf"
        (some "t") none none (some "f.pdf") none none 1).1
      = .error (.apiError "4001001" "bad token") ∧
    (CPDFHttpClient.get_task_info envOK stFresh "t" 1).1
      = .ok (CPDFTaskInfoResult.mk "TaskFinish") := by
  have h5 := C3_error_envelope_passthrough env500 stFresh "pk" "sk" "fk"
    "1" "5" "e" "t" "d/f.pdf" "f.pdf" none none none none 1
    (CPDFTaskInfoResult.mk "TaskFinish") (CPDFUploadFileResult.mk "fk1")
  have hOK := C3_error_envelope_passthrough envOK stFresh "pk" "sk" "fk"
    "1" "5" "e" "t" "d/f.pdf" "f.pdf" none none none none 1
    (CPDFTaskInfoResult.mk "TaskFinish") (CPDFUploadFileResult.mk "fk1")
  exact ⟨h5.1 (by decide), h5.2.2.1 (by decide),
    hOK.2.1 (by decide) (by decide)⟩

